import Mathlib

/-! Verification development for the multi-tenant data-isolation core of the
repository (`core/managers.py` and `core/middleware.py`): a shallow embedding
of the thread-local current-tenant context, the tenant-aware queryset and
manager operations, the model lifecycle hooks, and the request lifecycle
binding, together with proofs of the isolation properties stated about them. -/

/-- Tenant identity. `Tenant` rows are identified by their primary key, and the
object equality Django uses when comparing two tenant model instances is
primary-key (plus class) equality, so a tenant is embedded as its key. -/
abbrev Tenant := Nat

/-- State of the thread-local slot `_thread_locals.tenant`: `none` models the
attribute being absent (deleted or never set), `some v` models the attribute
being present with value `v` — where `v` itself may be `none`, which models
`set_current_tenant(None)`. -/
abbrev TenantContext := Option (Option Tenant)

/-- Embeds `get_current_tenant()`: `getattr(_thread_locals, 'tenant', None)`.
An absent attribute and an attribute holding `None` both read back as `none`. -/
def get_current_tenant (st : TenantContext) : Option Tenant :=
  match st with
  | none => none
  | some v => v

/-- Embeds `set_current_tenant(tenant)`: unconditionally stores the argument in
the slot (the argument may be `None`, i.e. `none`). -/
def set_current_tenant (tenant : Option Tenant) (_st : TenantContext) : TenantContext :=
  some tenant

/-- Embeds `clear_current_tenant()`: `delattr` when the attribute is present;
either way the attribute is absent afterwards. -/
def clear_current_tenant (_st : TenantContext) : TenantContext :=
  none

/-- Embeds a tenant-scoped model row or instance (shaped like `Project`: a
primary key, the mandatory `tenant` foreign key, and a payload field `name`).
`pk = none` models an unsaved instance (`self.pk is None`). The `tenant`
foreign key is embedded as the key of the referenced tenant; `none` models an
unset relation (or NULL column). -/
structure Entity where
  pk : Option Nat
  tenant : Option Tenant
  name : String
deriving DecidableEq, Repr

/-- Embeds `hasattr(self.model, 'tenant')` / `hasattr(Project, 'tenant')`: the
scoped models (`Project`, `Task`) declare the `tenant` field, so the class
attribute (the field descriptor) always exists. -/
def modelHasTenantField : Bool := true

/-- Embeds `hasattr(obj, 'tenant')` on an instance. For the non-nullable
`tenant` foreign key of `Project`/`Task`, reading the attribute of an instance
whose relation is unset raises `RelatedObjectDoesNotExist` (an
`AttributeError` subclass), so the attribute "exists" exactly when the
relation is set. -/
def instanceHasTenantAttr (self : Entity) : Bool :=
  self.tenant.isSome

/-- Embeds the keyword arguments of a `filter`/`get` call. The code only
inspects whether one of the keys `'tenant'`, `'tenant__id'`, `'tenant_id'`
occurs (`namesTenant`) and, when it does, which tenant value it binds
(`tenantVal`); every other keyword lookup is abstracted as the row predicate
`pred` it denotes. -/
structure FilterKwargs where
  namesTenant : Bool
  tenantVal : Option Tenant
  pred : Entity → Bool

/-- Row predicate denoted by a kwargs dict: the conjunction of the non-tenant
lookups with, when a tenant key occurs, the tenant equality it demands. -/
def kwargsMatch (kw : FilterKwargs) (e : Entity) : Bool :=
  kw.pred e && (!kw.namesTenant || decide (e.tenant = kw.tenantVal))

/-- Kwargs of a call with no arguments at all, e.g. `filter()`. -/
def noKwargs : FilterKwargs :=
  { namesTenant := false, tenantVal := none, pred := fun _ => true }

/-- Embeds a `TenantQuerySet` over one table: the table snapshot (`store`), the
accumulated WHERE condition of the base `QuerySet` (`cond`), the
`_tenant_filtering_disabled` flag (initialised to `False` in `__init__`), and
`_result_cache` (the base `QuerySet.__init__` sets it to `None`; `none` here
models Python `None`, i.e. the queryset has not been evaluated, and
`some cache` models an evaluated queryset caching its result rows). -/
structure TenantQuerySet where
  store : List Entity
  cond : Entity → Bool
  _tenant_filtering_disabled : Bool
  _result_cache : Option (List Entity)

/-- Rows produced when the queryset is evaluated: SELECT ... WHERE `cond`. -/
def TenantQuerySet.rows (qs : TenantQuerySet) : List Entity :=
  qs.store.filter qs.cond

/-- Embeds `_chain` (as overridden): a clone over the same query; a clone is
unevaluated (its `_result_cache` is `None`) and the override copies the
`_tenant_filtering_disabled` flag, which `{ qs with ... }` keeps. -/
def TenantQuerySet._chain (qs : TenantQuerySet) : TenantQuerySet :=
  { qs with _result_cache := none }

/-- Embeds the base-class `QuerySet.filter(**kwargs)` behaviour reached through
`super().filter(...)`: a clone whose WHERE condition additionally requires the
kwargs to match. -/
def TenantQuerySet.superFilter (qs : TenantQuerySet) (kw : FilterKwargs) : TenantQuerySet :=
  { qs with cond := fun e => qs.cond e && kwargsMatch kw e, _result_cache := none }

/-- Embeds the base-class `QuerySet.all()` reached through `super().all()`:
`self._chain()`, a copy of the current queryset. -/
def TenantQuerySet.superAll (qs : TenantQuerySet) : TenantQuerySet :=
  qs._chain

/-- Embeds `TenantQuerySet._filter_by_tenant`. The body's `self.filter(tenant=tenant)`
dispatches to the overridden `filter`, whose explicit-tenant early return makes
it exactly the base-class filter by `tenant=tenant`, i.e. `superFilter` with a
kwargs dict naming only the tenant. -/
def TenantQuerySet._filter_by_tenant (st : TenantContext) (qs : TenantQuerySet) : TenantQuerySet :=
  if qs._tenant_filtering_disabled then qs
  else
    match get_current_tenant st with
    | none => qs
    | some tenant =>
      if modelHasTenantField then
        qs.superFilter { namesTenant := true, tenantVal := some tenant, pred := fun _ => true }
      else qs

/-- Embeds the overridden `TenantQuerySet.all()`: `super().all()` followed by
`_filter_by_tenant()`. -/
def TenantQuerySet.all (st : TenantContext) (qs : TenantQuerySet) : TenantQuerySet :=
  (qs.superAll)._filter_by_tenant st

/-- Embeds the overridden `TenantQuerySet.filter(**kwargs)`: the base filter,
then — unless the kwargs explicitly name a tenant key — `_filter_by_tenant()`. -/
def TenantQuerySet.filter (st : TenantContext) (qs : TenantQuerySet) (kw : FilterKwargs) :
    TenantQuerySet :=
  let result := qs.superFilter kw
  if kw.namesTenant then result else result._filter_by_tenant st

/-- Errors surfaced by the embedded operations, named after the Python
exceptions raised at the corresponding places. -/
inductive DbError
  /-- `Model.DoesNotExist`, raised by `QuerySet.get` on zero matches. -/
  | DoesNotExist
  /-- `Model.MultipleObjectsReturned`, raised by `QuerySet.get` on >1 matches. -/
  | MultipleObjectsReturned
  /-- `ValueError("Cannot change tenant through update(). ...")`. -/
  | ValueErrorCannotChangeTenant
  /-- `ValueError("Cannot delete object from tenant ... while current tenant is ...")`. -/
  | ValueErrorCrossTenantDelete
  /-- `TypeError`: `filter(*self._result_cache ...)` splats `None` when the
  queryset is unevaluated (`_result_cache` is `None`). -/
  | TypeErrorArgumentAfterStarMustBeIterable
  /-- `TypeError`: `filter(*cache)` with a non-empty cache passes model
  instances as positional filter arguments, which the base filter rejects. -/
  | TypeErrorCannotFilterNonConditional
deriving DecidableEq, Repr

/-- Embeds the base-class `QuerySet.get` reached through `super().get(**kwargs)`:
its body runs `clone = self.filter(**kwargs)` — dynamic dispatch, so the
overridden `filter` — and then demands exactly one row. -/
def TenantQuerySet.superGet (st : TenantContext) (qs : TenantQuerySet) (kw : FilterKwargs) :
    Except DbError Entity :=
  match (TenantQuerySet.filter st qs kw).rows with
  | [] => .error .DoesNotExist
  | [e] => .ok e
  | _ :: _ :: _ => .error .MultipleObjectsReturned

/-- Embeds the overridden `TenantQuerySet.get(**kwargs)`: unless the kwargs
already name a tenant key, and a current tenant is set, the model has a tenant
field and filtering is enabled, `kwargs['tenant'] = tenant` is injected; then
`super().get(**kwargs)`. -/
def TenantQuerySet.get (st : TenantContext) (qs : TenantQuerySet) (kw : FilterKwargs) :
    Except DbError Entity :=
  let kw :=
    if !kw.namesTenant then
      match get_current_tenant st with
      | some tenant =>
        if modelHasTenantField && !qs._tenant_filtering_disabled then
          { kw with namesTenant := true, tenantVal := some tenant }
        else kw
      | none => kw
    else kw
  qs.superGet st kw

/-- Embeds the keyword arguments of an `update(**kwargs)` call: `tenantKw` is
`some v` exactly when `'tenant'` occurs in the kwargs (bound to `v`), and the
only other updatable field of the embedded entity is `name`. -/
structure UpdateKwargs where
  tenantKw : Option (Option Tenant)
  setName : Option String

/-- Field assignments an UPDATE with the given kwargs performs on a row. -/
def applyUpdate (kw : UpdateKwargs) (e : Entity) : Entity :=
  let e := match kw.setName with
    | some n => { e with name := n }
    | none => e
  match kw.tenantKw with
  | some t => { e with tenant := t }
  | none => e

/-- Embeds the overridden `TenantQuerySet.update(**kwargs)`. If `'tenant'` is in
the kwargs it raises `ValueError` before touching storage. Otherwise it runs
`self._filter_by_tenant().filter(*self._result_cache if hasattr(self, '_result_cache') else []).update(**kwargs)`:
the base class always has the `_result_cache` attribute, so the splat is over
its value — `None` for an unevaluated queryset (a `TypeError`), a non-empty
row list for an evaluated one (positional model instances, rejected by the
base filter), and only an evaluated-empty cache reaches the UPDATE, which then
runs against the tenant-filtered condition. Returns the table after the
operation. -/
def TenantQuerySet.update (st : TenantContext) (qs : TenantQuerySet) (kw : UpdateKwargs) :
    Except DbError (List Entity) :=
  if kw.tenantKw.isSome then
    .error .ValueErrorCannotChangeTenant
  else
    match qs._result_cache with
    | none => .error .TypeErrorArgumentAfterStarMustBeIterable
    | some [] =>
      let target := TenantQuerySet.filter st (qs._filter_by_tenant st) noKwargs
      .ok (qs.store.map fun e => if target.cond e then applyUpdate kw e else e)
    | some (_ :: _) => .error .TypeErrorCannotFilterNonConditional

/-- Embeds the overridden `TenantQuerySet.delete()`: the same
`self._filter_by_tenant().filter(*self._result_cache ...)` chain as `update`,
then a DELETE of every row matching the resulting condition. Returns the table
after the operation. -/
def TenantQuerySet.delete (st : TenantContext) (qs : TenantQuerySet) :
    Except DbError (List Entity) :=
  match qs._result_cache with
  | none => .error .TypeErrorArgumentAfterStarMustBeIterable
  | some [] =>
    let target := TenantQuerySet.filter st (qs._filter_by_tenant st) noKwargs
    .ok (qs.store.filter fun e => !target.cond e)
  | some (_ :: _) => .error .TypeErrorCannotFilterNonConditional

/-- Embeds `TenantQuerySet.without_tenant_filter()`: a `_chain` clone with
`_tenant_filtering_disabled` set. -/
def TenantQuerySet.without_tenant_filter (qs : TenantQuerySet) : TenantQuerySet :=
  { qs._chain with _tenant_filtering_disabled := true }

/-- Embeds `TenantQuerySet.for_tenant(tenant)`: `without_tenant_filter()` when
the argument is `None`, otherwise `without_tenant_filter().filter(tenant=tenant)`
(the overridden `filter`, with kwargs naming the tenant). -/
def TenantQuerySet.for_tenant (st : TenantContext) (qs : TenantQuerySet)
    (tenant : Option Tenant) : TenantQuerySet :=
  match tenant with
  | none => qs.without_tenant_filter
  | some t =>
    TenantQuerySet.filter st qs.without_tenant_filter
      { namesTenant := true, tenantVal := some t, pred := fun _ => true }

/-- Embeds `TenantManager.get_queryset()`: `TenantQuerySet(self.model, using=self._db)`,
a fresh queryset over the table with no WHERE condition; `__init__` sets
`_tenant_filtering_disabled = False` and the base `__init__` sets
`_result_cache = None`. -/
def TenantManager.get_queryset (store : List Entity) : TenantQuerySet :=
  { store := store
    cond := fun _ => true
    _tenant_filtering_disabled := false
    _result_cache := none }

/-- Embeds `TenantManager.without_tenant_filter()`. -/
def TenantManager.without_tenant_filter (store : List Entity) : TenantQuerySet :=
  (TenantManager.get_queryset store).without_tenant_filter

/-- Embeds `TenantManager.for_tenant(tenant)`. -/
def TenantManager.for_tenant (st : TenantContext) (store : List Entity)
    (tenant : Option Tenant) : TenantQuerySet :=
  (TenantManager.get_queryset store).for_tenant st tenant

/-- Fresh primary key the storage assigns on INSERT. -/
def freshPk (store : List Entity) : Nat :=
  (store.map fun e => e.pk.getD 0).foldr Nat.max 0 + 1

/-- Embeds the base `Model.save()` reached through `super().save(...)`: INSERT
with a freshly assigned primary key when the instance has none, otherwise
UPDATE of the row with the same primary key. Returns the saved instance and
the table after the save. -/
def Model.superSave (self : Entity) (store : List Entity) : Entity × List Entity :=
  match self.pk with
  | none =>
    let saved := { self with pk := some (freshPk store) }
    (saved, store ++ [saved])
  | some _ => (self, store.map fun e => if e.pk = self.pk then self else e)

/-- Embeds `TenantModelMixin.save`: only for a new object (`self.pk is None`),
if a current tenant is set, the instance has the tenant attribute and it is
`None`, assign the current tenant; then `super().save(...)`. An existing
object (`self.pk` set) is saved unconditionally, whatever its tenant. -/
def TenantModelMixin.save (st : TenantContext) (self : Entity) (store : List Entity) :
    Entity × List Entity :=
  let self :=
    if self.pk = none then
      match get_current_tenant st with
      | some tenant =>
        if instanceHasTenantAttr self && decide (self.tenant = none) then
          { self with tenant := some tenant }
        else self
      | none => self
    else self
  Model.superSave self store

/-- Embeds `TenantModelMixin.delete`: if a current tenant is set, the instance
has the tenant attribute and its tenant differs from the current one, raise
`ValueError`; otherwise `super().delete()`, which removes the instance's row.
Returns the table after the operation. -/
def TenantModelMixin.delete (st : TenantContext) (self : Entity) (store : List Entity) :
    Except DbError (List Entity) :=
  match get_current_tenant st with
  | some tenant =>
    if instanceHasTenantAttr self && decide (self.tenant ≠ some tenant) then
      .error .ValueErrorCrossTenantDelete
    else
      .ok (store.filter fun e => e.pk ≠ self.pk)
  | none => .ok (store.filter fun e => e.pk ≠ self.pk)

/-- Table left behind by `TenantModelMixin.delete`: on an error the operation
refused before touching storage, so the table is unchanged. -/
def storeAfterMixinDelete (st : TenantContext) (self : Entity) (store : List Entity) :
    List Entity :=
  match TenantModelMixin.delete st self store with
  | .ok s => s
  | .error _ => store

/-- Table left behind by `TenantQuerySet.delete`: on an error the operation
raised before touching storage, so the table is unchanged. -/
def storeAfterQsDelete (st : TenantContext) (qs : TenantQuerySet) : List Entity :=
  match TenantQuerySet.delete st qs with
  | .ok s => s
  | .error _ => qs.store

/-- Table left behind by `TenantQuerySet.update`: on an error the operation
raised before touching storage, so the table is unchanged. -/
def storeAfterQsUpdate (st : TenantContext) (qs : TenantQuerySet) (kw : UpdateKwargs) :
    List Entity :=
  match TenantQuerySet.update st qs kw with
  | .ok s => s
  | .error _ => qs.store

/-- Embeds the keyword arguments of a `create(**kwargs)` call: `tenantKw` is
`some v` exactly when `'tenant'` occurs in the kwargs (bound to `v`); `name`
is the payload field. -/
structure CreateKwargs where
  tenantKw : Option (Option Tenant)
  name : String

/-- Model instance constructed from create kwargs (`self.model(**kwargs)`):
unsaved, with the tenant relation set exactly when the kwargs set it. -/
def Entity.fromKwargs (kw : CreateKwargs) : Entity :=
  { pk := none, tenant := kw.tenantKw.getD none, name := kw.name }

/-- Embeds the base `Manager.create` reached through `super().create(**kwargs)`:
construct the instance from the kwargs and save it — `obj.save` dispatches to
the overridden `TenantModelMixin.save`. -/
def Manager.superCreate (st : TenantContext) (kw : CreateKwargs) (store : List Entity) :
    Entity × List Entity :=
  TenantModelMixin.save st (Entity.fromKwargs kw) store

/-- Embeds `TenantManager.create(**kwargs)`: if a current tenant is set, the
model has a tenant field and `'tenant'` is not in the kwargs, inject
`kwargs['tenant'] = tenant`; then `super().create(**kwargs)`. -/
def TenantManager.create (st : TenantContext) (kw : CreateKwargs) (store : List Entity) :
    Entity × List Entity :=
  let kw :=
    match get_current_tenant st with
    | some tenant =>
      if modelHasTenantField && kw.tenantKw.isNone then
        { kw with tenantKw := some (some tenant) }
      else kw
    | none => kw
  Manager.superCreate st kw store

/-- Embeds the base `QuerySet.bulk_create` reached through
`super().bulk_create(objs)`: batch INSERT of the objects. (Primary-key
back-assignment is storage-specific and irrelevant to the stated properties,
so the inserted instances are kept as passed.) -/
def QuerySet.superBulkCreate (objs : List Entity) (store : List Entity) :
    List Entity × List Entity :=
  (objs, store ++ objs)

/-- Embeds `TenantManager.bulk_create(objs)`: if a current tenant is set and the
model has a tenant field, every object that lacks the tenant attribute or
whose tenant is `None` gets the current tenant assigned; then
`super().bulk_create(objs)`. -/
def TenantManager.bulk_create (st : TenantContext) (objs : List Entity)
    (store : List Entity) : List Entity × List Entity :=
  let objs :=
    match get_current_tenant st with
    | some tenant =>
      if modelHasTenantField then
        objs.map fun obj =>
          if !instanceHasTenantAttr obj || decide (obj.tenant = none) then
            { obj with tenant := some tenant }
          else obj
      else objs
    | none => objs
  QuerySet.superBulkCreate objs store

/-- Embeds the authenticated-actor view the middleware consumes: whether
`request.user.is_authenticated`, and `request.user.tenant` (a nullable foreign
key, so possibly `None`). -/
structure RequestUser where
  is_authenticated : Bool
  tenant : Option Tenant
deriving DecidableEq, Repr

/-- Embeds `TenantMiddleware.process_request`: for an authenticated user, set
`request.tenant` and the thread-local slot to the user's tenant; otherwise set
`request.tenant = None` and clear the slot. Returns the new slot state and the
`request.tenant` value. -/
def TenantMiddleware.process_request (user : RequestUser) (st : TenantContext) :
    TenantContext × Option Tenant :=
  if user.is_authenticated then
    (set_current_tenant user.tenant st, user.tenant)
  else
    (clear_current_tenant st, none)

/-- Embeds `TenantMiddleware.process_response`: clears the thread-local slot
(one call to `clear_current_tenant`). -/
def TenantMiddleware.process_response (st : TenantContext) : TenantContext :=
  clear_current_tenant st

/-- Embeds `TenantMiddleware.process_exception`: clears the thread-local slot
(one call to `clear_current_tenant`). -/
def TenantMiddleware.process_exception (st : TenantContext) : TenantContext :=
  clear_current_tenant st

/-- Outcome of one unit of work (one request). -/
inductive Outcome
  /-- Normal completion: the view returns a response. -/
  | normal
  /-- Handled application-level error: the view catches it and still returns a
  response. -/
  | handledError
  /-- Unexpected fault propagating out of the view. -/
  | fault
deriving DecidableEq, Repr

/-- Models the framework's end-of-request hook dispatch around this middleware:
on normal completion and on a handled application-level error, only the
response phase runs, calling `process_response` once; on an unexpected fault
propagating out of the view, the exception phase calls `process_exception`,
the framework converts the fault into an error response, and that response
still passes through the response phase, calling `process_response` as well.
The second component counts how many times the middleware's hooks invoke
`clear_current_tenant` (each executed hook body contains exactly one call). -/
def end_of_unit_of_work (o : Outcome) (st : TenantContext) : TenantContext × Nat :=
  match o with
  | .normal => (TenantMiddleware.process_response st, 1)
  | .handledError => (TenantMiddleware.process_response st, 1)
  | .fault => (TenantMiddleware.process_response (TenantMiddleware.process_exception st), 2)

/-- Sum of a constantly-zero map is zero. -/
theorem sum_map_const_zero (ts : List Tenant) : (ts.map fun _ => (0 : Nat)).sum = 0 := by
  induction ts with
  | nil => rfl
  | cons a l ih => simp [ih]

/-- Summing a pointwise sum splits into two sums. -/
theorem sum_map_add (ts : List Tenant) (f g : Tenant → Nat) :
    (ts.map fun t => f t + g t).sum = (ts.map f).sum + (ts.map g).sum := by
  induction ts with
  | nil => rfl
  | cons a l ih =>
    simp only [List.map_cons, List.sum_cons, ih]
    omega

/-- An indicator for a value outside the list sums to zero. -/
theorem sum_map_indicator_zero (ts : List Tenant) (t0 : Tenant) (h : t0 ∉ ts) :
    (ts.map fun t => if t0 = t then (1 : Nat) else 0).sum = 0 := by
  induction ts with
  | nil => rfl
  | cons a l ih =>
    simp only [List.mem_cons, not_or] at h
    simp [h.1, ih h.2]

/-- Over a duplicate-free list, an indicator for a member sums to exactly one. -/
theorem sum_map_indicator (ts : List Tenant) (hnd : ts.Nodup) (t0 : Tenant) (h : t0 ∈ ts) :
    (ts.map fun t => if t0 = t then (1 : Nat) else 0).sum = 1 := by
  induction ts with
  | nil => cases h
  | cons a l ih =>
    rw [List.nodup_cons] at hnd
    rcases List.mem_cons.mp h with h0 | h0
    · subst h0
      simp [sum_map_indicator_zero l t0 hnd.1]
    · have hne : t0 ≠ a := by
        intro he
        subst he
        exact hnd.1 h0
      simp [hne, ih hnd.2 h0]

/-- Length of a filtered cons, split on whether the head passes. -/
theorem length_filter_cons (a : Entity) (l : List Entity) (p : Entity → Bool) :
    ((a :: l).filter p).length = (if p a then 1 else 0) + (l.filter p).length := by
  cases h : p a <;> simp [List.filter_cons, h, Nat.add_comm]

/-- Counting lemma behind the tenant-partition property: when every entity
passing `c` carries the tenant of exactly one member of a duplicate-free
tenant list, the `c`-count equals the sum of the per-tenant counts. -/
theorem length_filter_partition (ts : List Tenant) (hnd : ts.Nodup) (c : Entity → Bool) :
    ∀ l : List Entity, (∀ e ∈ l, c e = true → ∃ t ∈ ts, e.tenant = some t) →
      (l.filter c).length =
        (ts.map fun t => (l.filter fun e => c e && decide (e.tenant = some t)).length).sum := by
  intro l
  induction l with
  | nil =>
    intro _
    simp [sum_map_const_zero]
  | cons e l ih =>
    intro hcov
    have hl := ih fun x hx hc => hcov x (List.mem_cons_of_mem _ hx) hc
    have hmap : (ts.map fun t => ((e :: l).filter fun x => c x && decide (x.tenant = some t)).length)
        = ts.map fun t => (if c e && decide (e.tenant = some t) then 1 else 0) +
            (l.filter fun x => c x && decide (x.tenant = some t)).length := by
      apply List.map_congr_left
      intro t _
      exact length_filter_cons e l _
    rw [length_filter_cons, hmap, sum_map_add, ← hl]
    cases hc : c e with
    | false => simp [hc, sum_map_const_zero]
    | true =>
      obtain ⟨t0, ht0mem, ht0⟩ := hcov e (List.mem_cons_self e l) hc
      have hind : (ts.map fun t =>
          if (true && decide (e.tenant = some t)) = true then (1 : Nat) else 0)
          = ts.map fun t => if t0 = t then 1 else 0 := by
        apply List.map_congr_left
        intro t _
        rw [ht0]
        simp
      rw [hind, sum_map_indicator ts hnd t0 ht0mem]
      simp

/-- C1: for tenants T1 ≠ T2 and an entity E stored under tenant T1, running
`get` keyed on E's identifier through a fresh manager queryset while the
current-tenant context reads T2 injects `tenant=T2` into the lookup and fails
with `DoesNotExist` (NotFound), exactly as for a record that does not exist. -/
theorem getOne_cross_tenant_not_found
    (st : TenantContext) (store : List Entity) (T1 T2 : Tenant) (E : Entity)
    (hctx : get_current_tenant st = some T2)
    (hne : T1 ≠ T2)
    (hTen : E.tenant = some T1)
    (hkey : ∀ e ∈ store, e.pk = E.pk → e = E) :
    TenantQuerySet.get st (TenantManager.get_queryset store)
        { namesTenant := false, tenantVal := none, pred := fun e => decide (e.pk = E.pk) } =
      .error .DoesNotExist := by
  simp only [TenantQuerySet.get, hctx, modelHasTenantField, TenantManager.get_queryset,
    TenantQuerySet.superGet, TenantQuerySet.filter, TenantQuerySet.superFilter,
    TenantQuerySet.rows, kwargsMatch, Bool.not_false, Bool.and_self, if_true]
  have hnil : List.filter
      (fun e => true && (decide (e.pk = E.pk) && (!true || decide (e.tenant = some T2)))) store
      = [] := by
    apply List.filter_eq_nil_iff.mpr
    intro e he hm
    simp only [Bool.true_and, Bool.not_true, Bool.false_or, Bool.and_eq_true,
      decide_eq_true_eq] at hm
    obtain ⟨hpk, hten⟩ := hm
    have heE := hkey e he hpk
    subst heE
    rw [hTen] at hten
    exact hne (Option.some.inj hten)
  rw [hnil]

/-- Witness for C1 at a concrete input: entity pk 1 of tenant 1, context
reading tenant 2. -/
theorem getOne_cross_tenant_not_found_witness :
    get_current_tenant (some (some 2)) = some 2 ∧ (1 : Tenant) ≠ 2 ∧
    (⟨some 1, some 1, "P1"⟩ : Entity).tenant = some 1 ∧
    TenantQuerySet.get (some (some 2)) (TenantManager.get_queryset [⟨some 1, some 1, "P1"⟩])
        { namesTenant := false, tenantVal := none,
          pred := fun e => decide (e.pk = (⟨some 1, some 1, "P1"⟩ : Entity).pk) } =
      .error .DoesNotExist :=
  ⟨rfl, by decide, rfl,
    getOne_cross_tenant_not_found (some (some 2)) [⟨some 1, some 1, "P1"⟩] 1 2
      ⟨some 1, some 1, "P1"⟩ rfl (by decide) rfl (by decide)⟩

/-- C2 (counterexample): re-saving an existing instance (pk 1, stored tenant 1)
whose tenant attribute was changed to tenant 2 does not fail — even with
tenant 1 as the current context — and rewrites the stored tenant: the save
hook only guards brand-new instances, so this ordinary update path silently
rebinds the entity's tenant, contradicting the claim that every ordinary
update attempting the change fails and leaves the stored tenant unchanged. -/
theorem tenant_rebind_via_save_counterexample :
    (TenantModelMixin.save (some (some 1)) ⟨some 1, some 2, "P1"⟩ [⟨some 1, some 1, "P1"⟩]) =
      (⟨some 1, some 2, "P1"⟩, [⟨some 1, some 2, "P1"⟩]) ∧
    (⟨some 1, some 1, "P1"⟩ : Entity).tenant ≠ (⟨some 1, some 2, "P1"⟩ : Entity).tenant := by
  decide

/-- C2 (amended): a queryset `update(**kwargs)` whose kwargs name the tenant
always fails with the `ValueError` ("Cannot change tenant through update()")
before touching storage, leaving the table unchanged; the instance re-save
path, by contrast, is unguarded (see the counterexample). -/
theorem update_naming_tenant_always_refused
    (st : TenantContext) (qs : TenantQuerySet) (kw : UpdateKwargs)
    (h : kw.tenantKw.isSome = true) :
    TenantQuerySet.update st qs kw = .error .ValueErrorCannotChangeTenant ∧
    storeAfterQsUpdate st qs kw = qs.store := by
  constructor
  · simp [TenantQuerySet.update, h]
  · simp [storeAfterQsUpdate, TenantQuerySet.update, h]

/-- Witness for the amended C2 at a concrete input: `update(tenant=2)` under
context tenant 1 on a one-row table. -/
theorem update_naming_tenant_always_refused_witness :
    ((⟨some (some 2), none⟩ : UpdateKwargs).tenantKw.isSome = true) ∧
    (TenantQuerySet.update (some (some 1)) (TenantManager.get_queryset [⟨some 1, some 1, "P1"⟩])
        ⟨some (some 2), none⟩ = .error .ValueErrorCannotChangeTenant ∧
      storeAfterQsUpdate (some (some 1)) (TenantManager.get_queryset [⟨some 1, some 1, "P1"⟩])
        ⟨some (some 2), none⟩ = (TenantManager.get_queryset [⟨some 1, some 1, "P1"⟩]).store) :=
  ⟨rfl, update_naming_tenant_always_refused (some (some 1))
    (TenantManager.get_queryset [⟨some 1, some 1, "P1"⟩]) ⟨some (some 2), none⟩ rfl⟩

/-- C3: while the context reads tenant T, `create` without an explicit tenant
kwarg produces an entity whose tenant is T, and `bulk_create` rewrites every
object of the batch whose tenant is unset to carry exactly that same T,
leaving explicitly-set objects untouched. -/
theorem create_and_bulk_create_inject_current_tenant
    (st : TenantContext) (T : Tenant) (store : List Entity)
    (hctx : get_current_tenant st = some T) :
    (∀ kw : CreateKwargs, kw.tenantKw = none →
      ((TenantManager.create st kw store).1).tenant = some T) ∧
    (∀ objs : List Entity,
      (TenantManager.bulk_create st objs store).1 =
        objs.map fun o => if o.tenant = none then { o with tenant := some T } else o) := by
  constructor
  · intro kw hkw
    simp [TenantManager.create, hctx, hkw, modelHasTenantField, Manager.superCreate,
      TenantModelMixin.save, Entity.fromKwargs, instanceHasTenantAttr, Model.superSave]
  · intro objs
    simp only [TenantManager.bulk_create, hctx, modelHasTenantField, if_true,
      QuerySet.superBulkCreate]
    apply List.map_congr_left
    intro o _
    cases h : o.tenant <;> simp [instanceHasTenantAttr, h]

/-- Witness for C3 at a concrete input: context reading tenant 7 over an empty
table. -/
theorem create_and_bulk_create_inject_current_tenant_witness :
    get_current_tenant (some (some 7)) = some 7 ∧
    ((∀ kw : CreateKwargs, kw.tenantKw = none →
        ((TenantManager.create (some (some 7)) kw []).1).tenant = some 7) ∧
      (∀ objs : List Entity,
        (TenantManager.bulk_create (some (some 7)) objs []).1 =
          objs.map fun o => if o.tenant = none then { o with tenant := some 7 } else o)) :=
  ⟨rfl, create_and_bulk_create_inject_current_tenant (some (some 7)) 7 [] rfl⟩

/-- C4: a collection-level `delete()` run while the context reads tenant T and
tenant filtering is enabled never removes an entity of another tenant: every
stored entity whose tenant differs from T is still in the table afterwards,
on every branch of the operation (including the branches where the
`filter(*self._result_cache ...)` splat raises a `TypeError` and the table is
untouched). -/
theorem qs_delete_never_crosses_tenant
    (st : TenantContext) (qs : TenantQuerySet) (T : Tenant)
    (hctx : get_current_tenant st = some T)
    (hen : qs._tenant_filtering_disabled = false) :
    ∀ e ∈ qs.store, e.tenant ≠ some T → e ∈ storeAfterQsDelete st qs := by
  intro e he hne
  have hdec : decide (e.tenant = some T) = false := decide_eq_false hne
  unfold storeAfterQsDelete TenantQuerySet.delete
  cases hrc : qs._result_cache with
  | none => simpa using he
  | some cache =>
    cases cache with
    | nil =>
      simp only []
      rw [List.mem_filter]
      refine ⟨he, ?_⟩
      simp [TenantQuerySet.filter, TenantQuerySet.superFilter, TenantQuerySet._filter_by_tenant,
        hen, hctx, modelHasTenantField, noKwargs, kwargsMatch, hdec]
    | cons hd tl => simpa using he

/-- Witness for C4 at a concrete input: two rows of tenants 1 and 2, context
reading tenant 1. -/
theorem qs_delete_never_crosses_tenant_witness :
    get_current_tenant (some (some 1)) = some 1 ∧
    (TenantManager.get_queryset
        [⟨some 1, some 1, "P1"⟩, ⟨some 2, some 2, "P2"⟩])._tenant_filtering_disabled = false ∧
    ∀ e ∈ (TenantManager.get_queryset
        [⟨some 1, some 1, "P1"⟩, ⟨some 2, some 2, "P2"⟩]).store, e.tenant ≠ some 1 →
      e ∈ storeAfterQsDelete (some (some 1))
        (TenantManager.get_queryset [⟨some 1, some 1, "P1"⟩, ⟨some 2, some 2, "P2"⟩]) :=
  ⟨rfl, rfl,
    qs_delete_never_crosses_tenant (some (some 1))
      (TenantManager.get_queryset [⟨some 1, some 1, "P1"⟩, ⟨some 2, some 2, "P2"⟩]) 1 rfl rfl⟩

/-- C5: a `filter` whose kwargs explicitly name a tenant value T2 skips the
implicit current-tenant predicate entirely: the result is exactly the rows
matching the caller's predicate with tenant T2, whatever the current context
is (the result does not depend on the context at all), and no error is
raised. -/
theorem filter_explicit_tenant_overrides_implicit
    (st st' : TenantContext) (qs : TenantQuerySet) (kw : FilterKwargs) (T2 : Tenant)
    (hname : kw.namesTenant = true)
    (hval : kw.tenantVal = some T2) :
    (∀ e, e ∈ (TenantQuerySet.filter st qs kw).rows ↔
      e ∈ qs.rows ∧ kw.pred e = true ∧ e.tenant = some T2) ∧
    TenantQuerySet.filter st qs kw = TenantQuerySet.filter st' qs kw := by
  constructor
  · intro e
    simp [TenantQuerySet.filter, hname, TenantQuerySet.superFilter, TenantQuerySet.rows,
      List.mem_filter, kwargsMatch, hval]
    tauto
  · simp [TenantQuerySet.filter, hname]

/-- Witness for C5 at a concrete input: explicit `tenant=2` while the context
reads tenant 1 (and, for the context-independence half, no context at all). -/
theorem filter_explicit_tenant_overrides_implicit_witness :
    ({ namesTenant := true, tenantVal := some 2, pred := fun _ => true } : FilterKwargs).namesTenant
      = true ∧
    ({ namesTenant := true, tenantVal := some 2, pred := fun _ => true } : FilterKwargs).tenantVal
      = some 2 ∧
    ((∀ e, e ∈ (TenantQuerySet.filter (some (some 1))
          (TenantManager.get_queryset [⟨some 1, some 1, "P1"⟩, ⟨some 2, some 2, "P2"⟩])
          { namesTenant := true, tenantVal := some 2, pred := fun _ => true }).rows ↔
        e ∈ (TenantManager.get_queryset
          [⟨some 1, some 1, "P1"⟩, ⟨some 2, some 2, "P2"⟩]).rows ∧
        ({ namesTenant := true, tenantVal := some 2, pred := fun _ => true } : FilterKwargs).pred e
          = true ∧
        e.tenant = some 2) ∧
      TenantQuerySet.filter (some (some 1))
          (TenantManager.get_queryset [⟨some 1, some 1, "P1"⟩, ⟨some 2, some 2, "P2"⟩])
          { namesTenant := true, tenantVal := some 2, pred := fun _ => true } =
        TenantQuerySet.filter none
          (TenantManager.get_queryset [⟨some 1, some 1, "P1"⟩, ⟨some 2, some 2, "P2"⟩])
          { namesTenant := true, tenantVal := some 2, pred := fun _ => true }) :=
  ⟨rfl, rfl,
    filter_explicit_tenant_overrides_implicit (some (some 1)) none
      (TenantManager.get_queryset [⟨some 1, some 1, "P1"⟩, ⟨some 2, some 2, "P2"⟩])
      { namesTenant := true, tenantVal := some 2, pred := fun _ => true } 2 rfl rfl⟩

/-- C6: deleting an instance whose own tenant T' differs from the tenant T the
context reads fails with the `ValueError` ("Cannot delete object from
tenant ... while current tenant is ...") and the table is unchanged — the
entity remains stored. The check sits on the instance hook itself, so it does
not depend on how the instance was obtained. -/
theorem instance_delete_cross_tenant_refused
    (st : TenantContext) (self : Entity) (store : List Entity) (T T' : Tenant)
    (hctx : get_current_tenant st = some T)
    (hten : self.tenant = some T')
    (hne : T' ≠ T) :
    TenantModelMixin.delete st self store = .error .ValueErrorCrossTenantDelete ∧
    storeAfterMixinDelete st self store = store := by
  have hattr : instanceHasTenantAttr self = true := by
    simp [instanceHasTenantAttr, hten]
  have hneq : self.tenant ≠ some T := by
    rw [hten]
    simp [hne]
  constructor
  · simp [TenantModelMixin.delete, hctx, hattr, hneq]
  · simp [storeAfterMixinDelete, TenantModelMixin.delete, hctx, hattr, hneq]

/-- Witness for C6 at a concrete input: deleting the tenant-2 entity while the
context reads tenant 1. -/
theorem instance_delete_cross_tenant_refused_witness :
    get_current_tenant (some (some 1)) = some 1 ∧
    (⟨some 2, some 2, "P2"⟩ : Entity).tenant = some 2 ∧ (2 : Tenant) ≠ 1 ∧
    (TenantModelMixin.delete (some (some 1)) ⟨some 2, some 2, "P2"⟩ [⟨some 2, some 2, "P2"⟩] =
        .error .ValueErrorCrossTenantDelete ∧
      storeAfterMixinDelete (some (some 1)) ⟨some 2, some 2, "P2"⟩ [⟨some 2, some 2, "P2"⟩] =
        [⟨some 2, some 2, "P2"⟩]) :=
  ⟨rfl, rfl, by decide,
    instance_delete_cross_tenant_refused (some (some 1)) ⟨some 2, some 2, "P2"⟩
      [⟨some 2, some 2, "P2"⟩] 1 2 rfl rfl (by decide)⟩

/-- C7 (counterexample): on a unit of work ending in an unexpected fault, the
middleware's hooks call `clear_current_tenant` twice — once in
`process_exception` and once more in `process_response` on the error response
— not exactly once as claimed. -/
theorem clear_called_twice_on_fault_counterexample :
    (end_of_unit_of_work .fault (some (some 1))).2 = 2 ∧
    ¬ (end_of_unit_of_work .fault (some (some 1))).2 = 1 := by
  decide

/-- C7 (amended): whatever the outcome of a unit of work — normal completion,
handled application-level error, or unexpected fault — the end-of-work hooks
call `clear_current_tenant` at least once (exactly once on the first two
outcomes, twice on a fault), and afterwards the context store is absent, so
no tenant value leaks into the next unit of work on the same execution slot. -/
theorem context_absent_after_unit_of_work (o : Outcome) (st : TenantContext) :
    get_current_tenant (end_of_unit_of_work o st).1 = none ∧
    1 ≤ (end_of_unit_of_work o st).2 := by
  cases o <;> simp [end_of_unit_of_work, TenantMiddleware.process_response,
    TenantMiddleware.process_exception, clear_current_tenant, get_current_tenant]

/-- C8: with no current tenant set, `all()` applies no implicit narrowing (its
rows are the queryset's own rows; on a fresh manager queryset, the entire
table across all tenants), and `filter` applies only the caller's own
predicate. -/
theorem absent_context_reads_unscoped
    (st : TenantContext) (qs : TenantQuerySet)
    (hctx : get_current_tenant st = none) :
    (TenantQuerySet.all st qs).rows = qs.rows ∧
    (∀ kw, (TenantQuerySet.filter st qs kw).rows = (qs.superFilter kw).rows) ∧
    (∀ store : List Entity,
      (TenantQuerySet.all st (TenantManager.get_queryset store)).rows = store) := by
  refine ⟨?_, ?_, ?_⟩
  · by_cases hd : qs._tenant_filtering_disabled <;>
      simp [TenantQuerySet.all, TenantQuerySet.superAll, TenantQuerySet._chain,
        TenantQuerySet._filter_by_tenant, hctx, hd, TenantQuerySet.rows]
  · intro kw
    cases hn : kw.namesTenant <;>
      by_cases hd : qs._tenant_filtering_disabled <;>
        simp [TenantQuerySet.filter, TenantQuerySet.superFilter, TenantQuerySet._chain,
          TenantQuerySet._filter_by_tenant, hctx, hn, hd, TenantQuerySet.rows]
  · intro store
    simp [TenantQuerySet.all, TenantQuerySet.superAll, TenantQuerySet._chain,
      TenantQuerySet._filter_by_tenant, hctx, TenantManager.get_queryset, TenantQuerySet.rows]

/-- Witness for C8 at a concrete input: the absent context (`none`) over a
two-tenant table. -/
theorem absent_context_reads_unscoped_witness :
    get_current_tenant none = none ∧
    ((TenantQuerySet.all none
        (TenantManager.get_queryset [⟨some 1, some 1, "P1"⟩, ⟨some 2, some 2, "P2"⟩])).rows =
      (TenantManager.get_queryset [⟨some 1, some 1, "P1"⟩, ⟨some 2, some 2, "P2"⟩]).rows ∧
    (∀ kw, (TenantQuerySet.filter none
        (TenantManager.get_queryset [⟨some 1, some 1, "P1"⟩, ⟨some 2, some 2, "P2"⟩]) kw).rows =
      ((TenantManager.get_queryset
        [⟨some 1, some 1, "P1"⟩, ⟨some 2, some 2, "P2"⟩]).superFilter kw).rows) ∧
    (∀ store : List Entity,
      (TenantQuerySet.all none (TenantManager.get_queryset store)).rows = store)) :=
  ⟨rfl, absent_context_reads_unscoped none
    (TenantManager.get_queryset [⟨some 1, some 1, "P1"⟩, ⟨some 2, some 2, "P2"⟩]) rfl⟩

/-- C9: over any snapshot in which every visible entity carries the tenant of
exactly one member of a duplicate-free tenant list, the row count of
`without_tenant_filter().all()` equals the sum over those tenants of the row
counts of `for_tenant(t).all()`; and `for_tenant(None)` is
`without_tenant_filter()`. -/
theorem without_filter_count_partitions
    (st : TenantContext) (qs : TenantQuerySet) (ts : List Tenant)
    (hnd : ts.Nodup)
    (hcov : ∀ e ∈ qs.rows, ∃ t ∈ ts, e.tenant = some t) :
    ((qs.without_tenant_filter).all st).rows.length =
      (ts.map fun t => ((qs.for_tenant st (some t)).all st).rows.length).sum ∧
    qs.for_tenant st none = qs.without_tenant_filter := by
  constructor
  · have hred1 : ((qs.without_tenant_filter).all st).rows = qs.store.filter qs.cond := by
      simp [TenantQuerySet.without_tenant_filter, TenantQuerySet.all, TenantQuerySet.superAll,
        TenantQuerySet._chain, TenantQuerySet._filter_by_tenant, TenantQuerySet.rows]
    have hred2 : ∀ t : Tenant, ((qs.for_tenant st (some t)).all st).rows
        = qs.store.filter fun e => qs.cond e && decide (e.tenant = some t) := by
      intro t
      simp [TenantQuerySet.for_tenant, TenantQuerySet.filter, TenantQuerySet.without_tenant_filter,
        TenantQuerySet.superFilter, TenantQuerySet._chain, TenantQuerySet.all,
        TenantQuerySet.superAll, TenantQuerySet._filter_by_tenant, TenantQuerySet.rows,
        kwargsMatch]
    have hmap : (ts.map fun t => ((qs.for_tenant st (some t)).all st).rows.length)
        = ts.map fun t =>
            (qs.store.filter fun e => qs.cond e && decide (e.tenant = some t)).length := by
      apply List.map_congr_left
      intro t _
      rw [hred2 t]
    rw [hred1, hmap]
    exact length_filter_partition ts hnd qs.cond qs.store
      fun e he hc => hcov e (List.mem_filter.mpr ⟨he, hc⟩)
  · rfl

/-- Witness for C9 at a concrete input: a two-row snapshot over tenants 1 and 2
(count 2 = 1 + 1). -/
theorem without_filter_count_partitions_witness :
    ([1, 2] : List Tenant).Nodup ∧
    (∀ e ∈ (TenantManager.get_queryset
        [⟨some 1, some 1, "P1"⟩, ⟨some 2, some 2, "P2"⟩]).rows,
      ∃ t ∈ ([1, 2] : List Tenant), e.tenant = some t) ∧
    (((TenantManager.get_queryset
          [⟨some 1, some 1, "P1"⟩, ⟨some 2, some 2, "P2"⟩]).without_tenant_filter).all
          none).rows.length =
      (([1, 2] : List Tenant).map fun t =>
        (((TenantManager.get_queryset
          [⟨some 1, some 1, "P1"⟩, ⟨some 2, some 2, "P2"⟩]).for_tenant none
          (some t)).all none).rows.length).sum ∧
    (TenantManager.get_queryset
        [⟨some 1, some 1, "P1"⟩, ⟨some 2, some 2, "P2"⟩]).for_tenant none none =
      (TenantManager.get_queryset
        [⟨some 1, some 1, "P1"⟩, ⟨some 2, some 2, "P2"⟩]).without_tenant_filter :=
  ⟨by decide, by decide,
    without_filter_count_partitions none
      (TenantManager.get_queryset [⟨some 1, some 1, "P1"⟩, ⟨some 2, some 2, "P2"⟩])
      [1, 2] (by decide) (by decide)⟩

/-- C10: `set_current_tenant(None)` is observationally equivalent to a cleared
context: the getter reads absent, and `all`, `filter`, `get` and `create` run
identically on either state; moreover the middleware, for an authenticated
user with no tenant association, performs exactly `set_current_tenant(None)`,
after which reads are completely unscoped (full table visibility). -/
theorem set_none_equiv_cleared
    (st : TenantContext) (user : RequestUser)
    (hauth : user.is_authenticated = true)
    (hnoten : user.tenant = none) :
    get_current_tenant (set_current_tenant none st) = none ∧
    get_current_tenant (clear_current_tenant st) = none ∧
    (∀ qs, TenantQuerySet.all (set_current_tenant none st) qs
      = TenantQuerySet.all (clear_current_tenant st) qs) ∧
    (∀ qs kw, TenantQuerySet.filter (set_current_tenant none st) qs kw
      = TenantQuerySet.filter (clear_current_tenant st) qs kw) ∧
    (∀ qs kw, TenantQuerySet.get (set_current_tenant none st) qs kw
      = TenantQuerySet.get (clear_current_tenant st) qs kw) ∧
    (∀ kw store, TenantManager.create (set_current_tenant none st) kw store
      = TenantManager.create (clear_current_tenant st) kw store) ∧
    (TenantMiddleware.process_request user st).1 = set_current_tenant none st ∧
    (∀ qs, (TenantQuerySet.all (TenantMiddleware.process_request user st).1 qs).rows
      = qs.rows) := by
  have hpr : (TenantMiddleware.process_request user st).1 = some none := by
    simp [TenantMiddleware.process_request, hauth, hnoten, set_current_tenant]
  refine ⟨rfl, rfl, fun qs => rfl, fun qs kw => rfl, fun qs kw => rfl, fun kw store => rfl,
    hpr, ?_⟩
  intro qs
  rw [hpr]
  by_cases hd : qs._tenant_filtering_disabled <;>
    simp [TenantQuerySet.all, TenantQuerySet.superAll, TenantQuerySet._chain,
      TenantQuerySet._filter_by_tenant, get_current_tenant, hd, TenantQuerySet.rows]

/-- Witness for C10 at a concrete input: the state holding tenant 5 and an
authenticated user with no tenant. -/
theorem set_none_equiv_cleared_witness :
    (⟨true, none⟩ : RequestUser).is_authenticated = true ∧
    (⟨true, none⟩ : RequestUser).tenant = none ∧
    (get_current_tenant (set_current_tenant none (some (some 5))) = none ∧
    get_current_tenant (clear_current_tenant (some (some 5))) = none ∧
    (∀ qs, TenantQuerySet.all (set_current_tenant none (some (some 5))) qs
      = TenantQuerySet.all (clear_current_tenant (some (some 5))) qs) ∧
    (∀ qs kw, TenantQuerySet.filter (set_current_tenant none (some (some 5))) qs kw
      = TenantQuerySet.filter (clear_current_tenant (some (some 5))) qs kw) ∧
    (∀ qs kw, TenantQuerySet.get (set_current_tenant none (some (some 5))) qs kw
      = TenantQuerySet.get (clear_current_tenant (some (some 5))) qs kw) ∧
    (∀ kw store, TenantManager.create (set_current_tenant none (some (some 5))) kw store
      = TenantManager.create (clear_current_tenant (some (some 5))) kw store) ∧
    (TenantMiddleware.process_request ⟨true, none⟩ (some (some 5))).1 =
      set_current_tenant none (some (some 5)) ∧
    (∀ qs, (TenantQuerySet.all (TenantMiddleware.process_request ⟨true, none⟩ (some (some 5))).1
      qs).rows = qs.rows)) :=
  ⟨rfl, rfl, set_none_equiv_cleared (some (some 5)) ⟨true, none⟩ rfl rfl⟩
